import Mathlib

/-!
Shallow embedding of the LLM-gateway core:
`src/openhands/llm/providers/bedrock.py` (model-format adapter, retry
policy engine, inference client incl. streaming) and
`src/providers/loader.py` (provider registry).  Each definition mirrors
the corresponding source function; theorems at the end settle the
claims about this code.
-/

/-- Embedding of Python `str.startswith(pat)`, computed over character lists
so that it reduces in the kernel. -/
def strStarts (s pat : String) : Bool := pat.data.isPrefixOf s.data

/-- Fueled worker for removing every occurrence of `pat` from a character
list (Python `str.replace(pat, '')`); the fuel is the list length, enough
because each step consumes at least one character. -/
def stripOccFuel (pat : List Char) : Nat → List Char → List Char
  | 0, l => l
  | _ + 1, [] => []
  | fuel + 1, c :: cs =>
    if !pat.isEmpty && pat.isPrefixOf (c :: cs) then
      stripOccFuel pat fuel (List.drop pat.length (c :: cs))
    else
      c :: stripOccFuel pat fuel cs

/-- Remove every occurrence of `pat` from `l`. -/
def stripOcc (pat l : List Char) : List Char := stripOccFuel pat l.length l

/-- Embedding of `self.config.model.replace('bedrock/', '')`. -/
def stripBedrock (s : String) : String := ⟨stripOcc "bedrock/".data s.data⟩

/-- JSON-like values: request bodies, response payloads and decoded chunks
are Python dicts/lists/strings/numbers in the source. -/
inductive JVal where
  | jnull
  | jbool (b : Bool)
  | jnum (q : ℚ)
  | jstr (s : String)
  | jarr (xs : List JVal)
  | jobj (fields : List (String × JVal))

instance : Inhabited JVal := ⟨JVal.jnull⟩

/-- Association-list lookup (Python dict read). -/
def alookup {α : Type} : List (String × α) → String → Option α
  | [], _ => none
  | (k', v) :: rest, k => if k' = k then some v else alookup rest k

/-- Association-list update (Python dict assignment: overwrite in place or
append). -/
def aset {α : Type} : List (String × α) → String → α → List (String × α)
  | [], k, v => [(k, v)]
  | (k', v') :: rest, k, v =>
    if k' = k then (k, v) :: rest else (k', v') :: aset rest k v

/-- Runtime exceptions the Python decode paths can raise. -/
inductive PyError where
  | attributeError
  | indexError
  | typeError
  | bedrockRaised (msg : String)

/-- Python `d.get(k)` on a `JVal`: fails like `AttributeError` when the value
is not a dict, otherwise returns the entry if present. -/
def dictGet (j : JVal) (k : String) : Except PyError (Option JVal) :=
  match j with
  | .jobj fs => .ok (alookup fs k)
  | _ => .error .attributeError

/-- Python `d.get(k, default)` on a `JVal`. -/
def dictGetD (j : JVal) (k : String) (d : JVal) : Except PyError JVal :=
  (dictGet j k).map (fun o => o.getD d)

/-- Python `xs[0]` on a `JVal`: `IndexError` on an empty list, `TypeError`
when the value is not a list. -/
def jIndex0 : JVal → Except PyError JVal
  | .jarr (x :: _) => .ok x
  | .jarr [] => .error .indexError
  | _ => .error .typeError

/-- The distinct `BedrockError` shapes raised by `bedrock.py`, one
constructor per distinct message format. -/
inductive BedrockErr where
  | invalidRequest (msg : String)
  | rateLimitExceeded (maxRetries : Nat)
  | internalError (msg : String)
  | unexpected (msg : String)
  | wrappedOther (msg : String)
  | unsupportedModel (modelId : String)
  | unsupportedResponseFormat (modelId : String)
  deriving DecidableEq

/-- The exact exception message each `BedrockError` carries in the source. -/
def BedrockErr.message : BedrockErr → String
  | .invalidRequest m => "Invalid request: " ++ m
  | .rateLimitExceeded n => "Rate limit exceeded after " ++ toString n ++ " retries"
  | .internalError m => "Bedrock internal error: " ++ m
  | .unexpected m => "Unexpected Bedrock error: " ++ m
  | .wrappedOther m => "Error during Bedrock API call: " ++ m
  | .unsupportedModel mid => "Unsupported model: " ++ mid
  | .unsupportedResponseFormat mid => "Unsupported model response format: " ++ mid

/-- The slice of `LLMConfig` read by `bedrock.py`. -/
structure LLMConfig where
  model : String
  num_retries : Nat
  retry_min_wait : Nat
  retry_max_wait : Nat
  retry_multiplier : Nat
  temperature : JVal
  top_p : JVal
  max_output_tokens : JVal
  caching_prompt : Bool
  guardrail_config : Option JVal

/-- Per-call keyword arguments consulted by `create_completion` /
`_prepare_model_kwargs` (`kwargs.get(...)`). -/
structure CallKwargs where
  temperature : Option JVal := none
  top_p : Option JVal := none
  max_tokens : Option JVal := none
  cache_ttl : Option JVal := none

/-- Embedding of `BedrockClient._prepare_model_kwargs`: dispatch on the
provider-model-id prefix into one of three request-body families, or raise
`Unsupported model` before any transport interaction. -/
def prepareModelKwargs (cfg : LLMConfig) (prompt : String) (kw : CallKwargs) :
    Except BedrockErr JVal :=
  let model_id := stripBedrock cfg.model
  let temperature := kw.temperature.getD cfg.temperature
  let top_p := kw.top_p.getD cfg.top_p
  let max_tokens := kw.max_tokens.getD cfg.max_output_tokens
  if strStarts model_id "anthropic.claude" then
    .ok (.jobj [("prompt", .jstr ("Human: " ++ prompt ++ "\n\nAssistant:")),
                ("temperature", temperature),
                ("top_p", top_p),
                ("max_tokens", max_tokens),
                ("anthropic_version", .jstr "bedrock-2023-05-31")])
  else if strStarts model_id "amazon.titan" then
    .ok (.jobj [("inputText", .jstr prompt),
                ("textGenerationConfig",
                  .jobj [("temperature", temperature),
                         ("topP", top_p),
                         ("maxTokenCount", max_tokens)])])
  else if strStarts model_id "ai21" then
    .ok (.jobj [("prompt", .jstr prompt),
                ("temperature", temperature),
                ("topP", top_p),
                ("maxTokens", max_tokens)])
  else
    .error (.unsupportedModel model_id)

/-- Set a key on a request body (Python `request_body[k] = v`; the body
produced by `prepareModelKwargs` is always a dict). -/
def JVal.setF : JVal → String → JVal → JVal
  | .jobj fs, k, v => .jobj (aset fs k v)
  | j, _, _ => j

/-- Embedding of the body-construction part of
`BedrockClient.create_completion`: encode, then attach the cache directive
when `caching_prompt` is set (`ttl` from `kwargs.get('cache_ttl', 3600)`),
then attach the guardrail configuration verbatim when present. -/
def buildRequestBody (cfg : LLMConfig) (prompt : String) (kw : CallKwargs) :
    Except BedrockErr JVal := do
  let body ← prepareModelKwargs cfg prompt kw
  let body := if cfg.caching_prompt then
      body.setF "cacheConfig"
        (.jobj [("enabled", .jbool true), ("ttl", kw.cache_ttl.getD (.jnum 3600))])
    else body
  let body := match cfg.guardrail_config with
    | some g => body.setF "guardrailConfig" g
    | none => body
  return body

/-- Embedding of the decode half of `BedrockClient._sync_completion`:
extract the uniform result from a parsed response payload, per model
family; an unmatched prefix raises `Unsupported model response format`. -/
def syncDecode (model_id : String) (payload : JVal) : Except PyError JVal :=
  if strStarts model_id "anthropic.claude" then do
    let c ← dictGetD payload "completion" (.jstr "")
    let sr := (dictGet payload "stop_reason").map (fun o => o.getD .jnull)
    let sr ← sr
    let u ← dictGetD payload "usage" (.jobj [])
    return .jobj [("completion", c), ("stop_reason", sr), ("usage", u)]
  else if strStarts model_id "amazon.titan" then do
    let results ← dictGetD payload "results" (.jarr [.jobj []])
    let first ← jIndex0 results
    let c ← dictGetD first "outputText" (.jstr "")
    let u ← dictGetD payload "inputTokenCount" (.jobj [])
    return .jobj [("completion", c), ("usage", u)]
  else if strStarts model_id "ai21" then do
    let completions ← dictGetD payload "completions" (.jarr [.jobj []])
    let first ← jIndex0 completions
    let dat ← dictGetD first "data" (.jobj [])
    let c ← dictGetD dat "text" (.jstr "")
    let u ← dictGetD payload "usage" (.jobj [])
    return .jobj [("completion", c), ("usage", u)]
  else
    .error (.bedrockRaised (BedrockErr.unsupportedResponseFormat model_id).message)

/-- One event of the upstream response stream: either a falsy event, which
`_stream_completion` skips, or a frame whose chunk bytes parse to a JSON
value. -/
inductive StreamEvent where
  | empty
  | frame (chunk : JVal)

/-- Embedding of the per-frame decode inside `_stream_completion`:
`.ok (some u)` means the generator yields `u` for this frame, `.ok none`
means the frame produces no yield (the unmatched-prefix case has no else
branch in the source), `.error` means the decode raises. -/
def decodeStreamChunk (model_id : String) (chunk : JVal) :
    Except PyError (Option JVal) :=
  if strStarts model_id "anthropic.claude" then do
    let c ← dictGetD chunk "completion" (.jstr "")
    let sr ← (dictGet chunk "stop_reason").map (fun o => o.getD .jnull)
    let u ← dictGetD chunk "usage" (.jobj [])
    return some (.jobj [("completion", c), ("stop_reason", sr), ("usage", u)])
  else if strStarts model_id "amazon.titan" then do
    let c ← dictGetD chunk "outputText" (.jstr "")
    let u ← dictGetD chunk "inputTokenCount" (.jobj [])
    return some (.jobj [("completion", c), ("usage", u)])
  else if strStarts model_id "ai21" then do
    let completions ← dictGetD chunk "completions" (.jarr [.jobj []])
    let first ← jIndex0 completions
    let dat ← dictGetD first "data" (.jobj [])
    let c ← dictGetD dat "text" (.jstr "")
    let u ← dictGetD chunk "usage" (.jobj [])
    return some (.jobj [("completion", c), ("usage", u)])
  else
    .ok none

/-- Embedding of the frame loop of `_stream_completion`: consume the event
list in order, skipping falsy events, yielding one decoded chunk per
decodable frame; the pair is (chunks yielded in order, terminal error if a
decode raised mid-stream). -/
def streamCompletion (model_id : String) : List StreamEvent → List JVal × Option PyError
  | [] => ([], none)
  | .empty :: rest => streamCompletion model_id rest
  | .frame c :: rest =>
    match decodeStreamChunk model_id c with
    | .error e => ([], some e)
    | .ok none => streamCompletion model_id rest
    | .ok (some u) =>
      let r := streamCompletion model_id rest
      (u :: r.1, r.2)

/-- Decidable check that every chunk of a stream is a frame the decoder
turns into exactly one yielded value for this model. -/
def framesOk (model_id : String) (chunks : List JVal) : Bool :=
  chunks.all (fun c =>
    match decodeStreamChunk model_id c with
    | .ok (some _) => true
    | _ => false)

/-- The value a decodable frame yields (meaningful when `framesOk` holds on
the frame). -/
def yieldOf (model_id : String) (c : JVal) : JVal :=
  match decodeStreamChunk model_id c with
  | .ok (some u) => u
  | _ => .jnull

/-- Outcome of one transport attempt as seen by the retry wrapper: a
successful return value, a `botocore` `ClientError` with its error code, or
any other exception. -/
inductive TransportOutcome (α : Type) where
  | ok (a : α)
  | clientError (code msg : String)
  | otherError (msg : String)

/-- How one wrapped call terminates: a returned value, a raised
`BedrockError`, or falling off the while loop (Python returns `None`;
unreachable for the configurations the source builds). -/
inductive CallOutcome (α : Type) where
  | ok (a : α)
  | err (e : BedrockErr)
  | noneReturn
  deriving DecidableEq

/-- Observable trace of one wrapped call: its outcome, the number of
transport attempts made, and the backoff delays slept, in order. -/
structure RunResult (α : Type) where
  outcome : CallOutcome α
  attempts : Nat
  sleeps : List Nat
  deriving DecidableEq

/-- Embedding of the `while retries < max_retries` loop of
`_handle_bedrock_error`.  `oracle i` is the outcome of the `i`-th transport
attempt (0-based); `r` is the current value of `retries` and `fuel` is
`maxRetries - r`, so `fuel = 0` is exactly the loop condition failing.  On
a throttle the source increments `retries` first, raises when it reaches
`max_retries`, and otherwise sleeps
`min(retry_max_wait, retry_min_wait * retry_multiplier ** retries)` with
the already-incremented counter. -/
def bedrockGo {α : Type} (minW maxW mult maxRetries : Nat)
    (oracle : Nat → TransportOutcome α) : Nat → Nat → RunResult α
  | _, 0 => ⟨.noneReturn, 0, []⟩
  | r, fuel + 1 =>
    match oracle r with
    | .ok a => ⟨.ok a, 1, []⟩
    | .clientError code msg =>
      if code = "ValidationException" then
        ⟨.err (.invalidRequest msg), 1, []⟩
      else if code = "ThrottlingException" then
        if r + 1 = maxRetries then
          ⟨.err (.rateLimitExceeded maxRetries), 1, []⟩
        else
          let w := min maxW (minW * mult ^ (r + 1))
          let rest := bedrockGo minW maxW mult maxRetries oracle (r + 1) fuel
          ⟨rest.outcome, rest.attempts + 1, w :: rest.sleeps⟩
      else if code = "InternalServerException" then
        ⟨.err (.internalError msg), 1, []⟩
      else
        ⟨.err (.unexpected msg), 1, []⟩
    | .otherError msg => ⟨.err (.wrappedOther msg), 1, []⟩

/-- Embedding of `max_retries = self.config.num_retries or 3`: a falsy
(zero) configured count is replaced by the default 3. -/
def effectiveMaxRetries (numRetries : Nat) : Nat :=
  if numRetries = 0 then 3 else numRetries

/-- Embedding of the `_handle_bedrock_error` wrapper applied to a call whose
`i`-th transport attempt has outcome `oracle i`. -/
def handleBedrockError {α : Type} (cfg : LLMConfig)
    (oracle : Nat → TransportOutcome α) : RunResult α :=
  let maxRetries := effectiveMaxRetries cfg.num_retries
  bedrockGo cfg.retry_min_wait cfg.retry_max_wait cfg.retry_multiplier
    maxRetries oracle 0 maxRetries

/-- Exceptions that can escape the undecorated body of a client call:
a transport `ClientError` (with its error code) or a Python-level error. -/
inductive InnerExc where
  | client (code msg : String)
  | py (e : PyError)

/-- Embedding of the non-streaming call body (`create_completion` with
`stream=False` followed by `_sync_completion`), with an explicit log of the
`invoke_model` requests issued: encode, build the body, issue exactly one
transport request, decode.  When encoding fails the raised `BedrockError`
escapes before any transport request is logged. -/
def syncCallInner (cfg : LLMConfig) (prompt : String) (kw : CallKwargs)
    (transport : String → JVal → Except (String × String) JVal) :
    Except InnerExc JVal × List (String × JVal) :=
  match buildRequestBody cfg prompt kw with
  | .error e => (.error (.py (.bedrockRaised e.message)), [])
  | .ok body =>
    let mid := stripBedrock cfg.model
    match transport mid body with
    | .error (code, msg) => (.error (.client code msg), [(mid, body)])
    | .ok payload =>
      match syncDecode mid payload with
      | .ok v => (.ok v, [(mid, body)])
      | .error pe => (.error (.py pe), [(mid, body)])

/-- A suspended streaming generator: calling the generator function
`_stream_completion` in Python builds this object without executing any of
its body — in particular without touching the transport. -/
structure StreamGen where
  model_id : String
  body : JVal

/-- Embedding of the decorated `create_completion` with `stream=True`.
Because `_stream_completion` is a generator function, the wrapped body only
encodes the request and returns the suspended generator; no transport
attempt happens inside the retry wrapper (the returned `Nat` counts the
transport attempts the wrapper observed, always 0 here).  A `BedrockError`
raised by encoding is caught by the wrapper's generic `except Exception`
branch and re-raised with the `Error during Bedrock API call` message. -/
def createCompletionStream (cfg : LLMConfig) (prompt : String) (kw : CallKwargs) :
    Except BedrockErr StreamGen × Nat :=
  match buildRequestBody cfg prompt kw with
  | .error e => (.error (.wrappedOther e.message), 0)
  | .ok body => (.ok ⟨stripBedrock cfg.model, body⟩, 0)

/-- Result of the initial `invoke_model_with_response_stream` transport
call: the full list of upstream events, or a `ClientError`. -/
inductive StreamTransport where
  | ok (events : List StreamEvent)
  | clientError (code msg : String)

/-- Embedding of consuming the suspended generator: the first pull executes
`invoke_model_with_response_stream` exactly once — outside any retry loop —
so a transport `ClientError` (first component of an `.error`) propagates to
the consumer raw, not wrapped as a `BedrockError`; otherwise the frame loop
runs.  The `Nat` counts transport attempts made during consumption. -/
def consumeStream (transport : StreamTransport) (g : StreamGen) :
    Except (String × String) (List JVal × Option PyError) × Nat :=
  match transport with
  | .clientError code msg => (.error (code, msg), 1)
  | .ok events => (.ok (streamCompletion g.model_id events), 1)

/-- A field-level violation reported by schema validation of a provider
declaration. -/
inductive FieldError where
  | missing (field : String)
  | wrongType (field : String)
  deriving DecidableEq

/-- Embedding of the validated `ProviderConfig` pydantic model of
`src/providers/loader.py`. -/
structure ProviderConfig where
  model_name : String
  api_base : String
  api_key : String
  provider_class : Option String
  auth_type : String
  custom_headers : List (String × String)
  params : List (String × JVal)
  timeout : Int
  max_retries : Int
  temperature : ℚ
  max_tokens : Option Int
  stream : Bool

/-- Required string field: missing when absent, wrong-typed when not a
string. -/
def reqStr (raw : List (String × JVal)) (k : String) : Except FieldError String :=
  match alookup raw k with
  | some (.jstr s) => .ok s
  | some _ => .error (.wrongType k)
  | none => .error (.missing k)

/-- Optional string field (`Optional[str] = None`). -/
def optStr (raw : List (String × JVal)) (k : String) : Except FieldError (Option String) :=
  match alookup raw k with
  | some (.jstr s) => .ok (some s)
  | some .jnull => .ok none
  | some _ => .error (.wrongType k)
  | none => .ok none

/-- String field with a declared default. -/
def strD (raw : List (String × JVal)) (k : String) (d : String) : Except FieldError String :=
  match alookup raw k with
  | some (.jstr s) => .ok s
  | some _ => .error (.wrongType k)
  | none => .ok d

/-- Convert a JSON object whose values must all be strings
(`Dict[str, str]`). -/
def strFields : List (String × JVal) → Option (List (String × String))
  | [] => some []
  | (k, .jstr s) :: rest => (strFields rest).map (fun r => (k, s) :: r)
  | _ :: _ => none

/-- String-to-string mapping field with default `{}`. -/
def strMapD (raw : List (String × JVal)) (k : String) :
    Except FieldError (List (String × String)) :=
  match alookup raw k with
  | some (.jobj fs) =>
    match strFields fs with
    | some m => .ok m
    | none => .error (.wrongType k)
  | some _ => .error (.wrongType k)
  | none => .ok []

/-- Free-form mapping field (`Dict[str, Any]`) with default `{}`. -/
def anyMapD (raw : List (String × JVal)) (k : String) :
    Except FieldError (List (String × JVal)) :=
  match alookup raw k with
  | some (.jobj fs) => .ok fs
  | some _ => .error (.wrongType k)
  | none => .ok []

/-- Integer field with a declared default. -/
def intD (raw : List (String × JVal)) (k : String) (d : Int) : Except FieldError Int :=
  match alookup raw k with
  | some (.jnum q) => if q.den = 1 then .ok q.num else .error (.wrongType k)
  | some _ => .error (.wrongType k)
  | none => .ok d

/-- Numeric field with a declared default. -/
def ratD (raw : List (String × JVal)) (k : String) (d : ℚ) : Except FieldError ℚ :=
  match alookup raw k with
  | some (.jnum q) => .ok q
  | some _ => .error (.wrongType k)
  | none => .ok d

/-- Optional integer field (`Optional[int] = None`). -/
def optInt (raw : List (String × JVal)) (k : String) : Except FieldError (Option Int) :=
  match alookup raw k with
  | some (.jnum q) => if q.den = 1 then .ok (some q.num) else .error (.wrongType k)
  | some .jnull => .ok none
  | some _ => .error (.wrongType k)
  | none => .ok none

/-- Boolean field with a declared default. -/
def boolD (raw : List (String × JVal)) (k : String) (d : Bool) : Except FieldError Bool :=
  match alookup raw k with
  | some (.jbool b) => .ok b
  | some _ => .error (.wrongType k)
  | none => .ok d

/-- Violations contributed by one field check. -/
def errList {α : Type} : Except FieldError α → List FieldError
  | .ok _ => []
  | .error e => [e]

/-- Every violation of a raw declaration against the `ProviderConfig`
schema, in field order — the validation library reports all of them at
once. -/
def declErrors (raw : List (String × JVal)) : List FieldError :=
  errList (reqStr raw "model_name") ++ errList (reqStr raw "api_base") ++
  errList (reqStr raw "api_key") ++ errList (optStr raw "provider_class") ++
  errList (strD raw "auth_type" "bearer") ++ errList (strMapD raw "custom_headers") ++
  errList (anyMapD raw "params") ++ errList (intD raw "timeout" 30) ++
  errList (intD raw "max_retries" 3) ++ errList (ratD raw "temperature" (7/10)) ++
  errList (optInt raw "max_tokens") ++ errList (boolD raw "stream" false)

/-- Build the validated configuration when every field check passes. -/
def buildConfig (raw : List (String × JVal)) : Option ProviderConfig := do
  let mn ← (reqStr raw "model_name").toOption
  let ab ← (reqStr raw "api_base").toOption
  let ak ← (reqStr raw "api_key").toOption
  let pc ← (optStr raw "provider_class").toOption
  let at_ ← (strD raw "auth_type" "bearer").toOption
  let ch ← (strMapD raw "custom_headers").toOption
  let ps ← (anyMapD raw "params").toOption
  let tm ← (intD raw "timeout" 30).toOption
  let mr ← (intD raw "max_retries" 3).toOption
  let tp ← (ratD raw "temperature" (7/10)).toOption
  let mt ← (optInt raw "max_tokens").toOption
  let st ← (boolD raw "stream" false).toOption
  pure ⟨mn, ab, ak, pc, at_, ch, ps, tm, mr, tp, mt, st⟩

/-- Embedding of `ProviderConfig(**config)`: the validated declaration, or
the aggregated list of every violation. -/
def validateProviderConfig (raw : List (String × JVal)) :
    Except (List FieldError) ProviderConfig :=
  match buildConfig raw with
  | some cfg => .ok cfg
  | none => .error (declErrors raw)

/-- Load-time failures of the registry: an aggregated validation failure
(`Invalid provider configuration`) or a custom-provider resolution failure
(`Failed to register custom provider`). -/
inductive LoadError where
  | invalidConfiguration (errs : List FieldError)
  | registrationFailed (cls : String)

/-- State of `CustomProviderLoader` plus the shared LiteLLM registration
mechanism it mutates. -/
structure LoaderState where
  loaded_models : List (String × ProviderConfig)
  litellm_providers : List (String × ProviderConfig)
  litellm_classes : List (String × String)

/-- Embedding of `CustomProviderLoader.load_provider` from the parsed
declaration mapping onward (path resolution and YAML parsing are I/O and
sit outside the embedding; `resolve cls` says whether the module-qualified
`provider_class` reference imports successfully).  Validation failure and
registration failure leave the state untouched; success registers with the
shared mechanism and overwrites `loaded_models[model_name]`. -/
def load_provider (resolve : String → Bool) (st : LoaderState)
    (raw : List (String × JVal)) : Except LoadError ProviderConfig × LoaderState :=
  match validateProviderConfig raw with
  | .error errs => (.error (.invalidConfiguration errs), st)
  | .ok cfg =>
    match cfg.provider_class with
    | some cls =>
      if resolve cls then
        (.ok cfg,
         { loaded_models := aset st.loaded_models cfg.model_name cfg,
           litellm_providers := aset st.litellm_providers cfg.model_name cfg,
           litellm_classes := aset st.litellm_classes cfg.model_name cls })
      else
        (.error (.registrationFailed cls), st)
    | none =>
      (.ok cfg,
       { loaded_models := aset st.loaded_models cfg.model_name cfg,
         litellm_providers := aset st.litellm_providers cfg.model_name cfg,
         litellm_classes := st.litellm_classes })

/-- Embedding of `CustomProviderLoader.get_model_config`. -/
def get_model_config (st : LoaderState) (name : String) : Option ProviderConfig :=
  alookup st.loaded_models name

/-- Embedding of `CustomProviderLoader.list_models`. -/
def list_models (st : LoaderState) : List (String × ProviderConfig) :=
  st.loaded_models

/-- A concrete client configuration exercising the retry engine:
`num_retries = 3`, `retry_min_wait = 1`, `retry_max_wait = 100`,
`retry_multiplier = 2`. -/
def cfgT : LLMConfig :=
  { model := "bedrock/anthropic.claude-v2", num_retries := 3, retry_min_wait := 1,
    retry_max_wait := 100, retry_multiplier := 2, temperature := .jnum 0,
    top_p := .jnum 1, max_output_tokens := .jnum 256, caching_prompt := false,
    guardrail_config := none }

/-- A transport that throttles on every attempt. -/
def oracleT : Nat → TransportOutcome JVal :=
  fun _ => .clientError "ThrottlingException" "throttled"

/-- A transport that throttles on the first two attempts, then succeeds. -/
def oracleT2 : Nat → TransportOutcome JVal :=
  fun i => if i < 2 then .clientError "ThrottlingException" "throttled" else .ok (.jstr "done")

/-- A transport whose first attempt fails with a `ValidationException`. -/
def oracleV : Nat → TransportOutcome JVal :=
  fun _ => .clientError "ValidationException" "bad request"

/-- A transport whose first attempt fails with an `InternalServerException`. -/
def oracleI : Nat → TransportOutcome JVal :=
  fun _ => .clientError "InternalServerException" "boom"

/-- The throttling-configuration with a configured retry count of zero. -/
def cfgT0 : LLMConfig := { cfgT with num_retries := 0 }

/-- Read a key from a JSON object (observer used to state properties of
encoded bodies). -/
def jLookup : JVal → String → Option JVal
  | .jobj fs, k => alookup fs k
  | _, _ => none

/-- The concrete configuration with prompt caching enabled. -/
def cfgC : LLMConfig := { cfgT with caching_prompt := true }

/-- Call kwargs with no entries (all defaults). -/
def kwNone : CallKwargs := {}

/-- Call kwargs overriding the cache ttl to 120. -/
def kwTtl : CallKwargs := { cache_ttl := some (.jnum 120) }

/-- A configuration naming a model outside the three known families. -/
def cfgU : LLMConfig := { cfgT with model := "bedrock/mistral.large" }

/-- A concrete two-frame chunk stream for the claude family. -/
def chunks8 : List JVal := [.jobj [("completion", .jstr "a")], .jobj []]

/-- The empty registry state. -/
def st0 : LoaderState := { loaded_models := [], litellm_providers := [], litellm_classes := [] }

/-- A resolver for which every provider-class reference imports. -/
def rTrue : String → Bool := fun _ => true

/-- A declaration missing the required `api_key`. -/
def raw6 : List (String × JVal) :=
  [("model_name", .jstr "test-model"), ("api_base", .jstr "https://api.example.com")]

/-- A well-formed declaration for `test-model`. -/
def raw7a : List (String × JVal) :=
  [("model_name", .jstr "test-model"), ("api_base", .jstr "https://one.example.com"),
   ("api_key", .jstr "key-one")]

/-- A second well-formed declaration reusing the same `model_name`. -/
def raw7b : List (String × JVal) :=
  [("model_name", .jstr "test-model"), ("api_base", .jstr "https://two.example.com"),
   ("api_key", .jstr "key-two")]

theorem alookup_aset_self {α : Type} (l : List (String × α)) (k : String) (v : α) :
    alookup (aset l k v) k = some v := by
  induction l with
  | nil => simp [aset, alookup]
  | cons hd tl ih =>
    obtain ⟨k', v'⟩ := hd
    by_cases h : k' = k
    · simp [aset, alookup, h]
    · simp [aset, alookup, h, ih]

theorem alookup_aset_ne {α : Type} (l : List (String × α)) (k k' : String) (v : α)
    (h : k' ≠ k) : alookup (aset l k' v) k = alookup l k := by
  induction l with
  | nil => simp [aset, alookup, h]
  | cons hd tl ih =>
    obtain ⟨k0, v0⟩ := hd
    by_cases h0 : k0 = k'
    · subst h0
      simp [aset, alookup, h]
    · by_cases h1 : k0 = k
      · subst h1
        simp [aset, alookup, h0]
      · simp [aset, alookup, h0, h1, ih]

theorem effectiveMaxRetries_pos (n : Nat) : 1 ≤ effectiveMaxRetries n := by
  unfold effectiveMaxRetries
  split <;> omega

theorem bedrockGo_ok_step {α : Type} (minW maxW mult mR : Nat)
    (oracle : Nat → TransportOutcome α) (r f : Nat) (a : α)
    (h : oracle r = .ok a) :
    bedrockGo minW maxW mult mR oracle r (f + 1) = ⟨.ok a, 1, []⟩ := by
  conv_lhs => rw [bedrockGo]
  rw [h]

theorem bedrockGo_validation_step {α : Type} (minW maxW mult mR : Nat)
    (oracle : Nat → TransportOutcome α) (r f : Nat) (msg : String)
    (h : oracle r = .clientError "ValidationException" msg) :
    bedrockGo minW maxW mult mR oracle r (f + 1) =
      ⟨.err (.invalidRequest msg), 1, []⟩ := by
  conv_lhs => rw [bedrockGo]
  rw [h]
  simp

theorem bedrockGo_internal_step {α : Type} (minW maxW mult mR : Nat)
    (oracle : Nat → TransportOutcome α) (r f : Nat) (msg : String)
    (h : oracle r = .clientError "InternalServerException" msg) :
    bedrockGo minW maxW mult mR oracle r (f + 1) =
      ⟨.err (.internalError msg), 1, []⟩ := by
  conv_lhs => rw [bedrockGo]
  rw [h]
  simp

theorem bedrockGo_other_step {α : Type} (minW maxW mult mR : Nat)
    (oracle : Nat → TransportOutcome α) (r f : Nat) (msg : String)
    (h : oracle r = .otherError msg) :
    bedrockGo minW maxW mult mR oracle r (f + 1) =
      ⟨.err (.wrappedOther msg), 1, []⟩ := by
  conv_lhs => rw [bedrockGo]
  rw [h]

theorem bedrockGo_throttle_last_step {α : Type} (minW maxW mult mR : Nat)
    (oracle : Nat → TransportOutcome α) (r f : Nat) (msg : String)
    (h : oracle r = .clientError "ThrottlingException" msg) (hr : r + 1 = mR) :
    bedrockGo minW maxW mult mR oracle r (f + 1) =
      ⟨.err (.rateLimitExceeded mR), 1, []⟩ := by
  conv_lhs => rw [bedrockGo]
  rw [h]
  simp [hr]

theorem bedrockGo_throttle_step {α : Type} (minW maxW mult mR : Nat)
    (oracle : Nat → TransportOutcome α) (r f : Nat) (msg : String)
    (h : oracle r = .clientError "ThrottlingException" msg) (hr : ¬(r + 1 = mR)) :
    bedrockGo minW maxW mult mR oracle r (f + 1) =
      ⟨(bedrockGo minW maxW mult mR oracle (r + 1) f).outcome,
       (bedrockGo minW maxW mult mR oracle (r + 1) f).attempts + 1,
       min maxW (minW * mult ^ (r + 1)) ::
         (bedrockGo minW maxW mult mR oracle (r + 1) f).sleeps⟩ := by
  conv_lhs => rw [bedrockGo]
  rw [h]
  simp [hr]

theorem bedrockGo_throttle_all {α : Type} (minW maxW mult mR : Nat)
    (oracle : Nat → TransportOutcome α) (m : Nat → String)
    (hth : ∀ i, oracle i = .clientError "ThrottlingException" (m i)) :
    ∀ fuel r, r + fuel = mR → 1 ≤ fuel →
      bedrockGo minW maxW mult mR oracle r fuel =
        ⟨.err (.rateLimitExceeded mR), fuel,
         (List.range (fuel - 1)).map (fun i => min maxW (minW * mult ^ (r + 1 + i)))⟩ := by
  intro fuel
  induction fuel with
  | zero => intro r h1 h2; omega
  | succ f ih =>
    intro r hsum _
    by_cases hr : r + 1 = mR
    · have hf : f = 0 := by omega
      subst hf
      rw [bedrockGo_throttle_last_step minW maxW mult mR oracle r 0 (m r) (hth r) hr]
      simp
    · have hf1 : 1 ≤ f := by omega
      rw [bedrockGo_throttle_step minW maxW mult mR oracle r f (m r) (hth r) hr,
        ih (r + 1) (by omega) hf1]
      obtain ⟨j, rfl⟩ : ∃ j, f = j + 1 := ⟨f - 1, by omega⟩
      have hmap : List.map (fun i => min maxW (minW * mult ^ (r + 1 + 1 + i))) (List.range j)
          = List.map ((fun i => min maxW (minW * mult ^ (r + 1 + i))) ∘ Nat.succ)
              (List.range j) := by
        apply List.map_congr_left
        intro i _
        simp only [Function.comp_apply]
        have he : r + 1 + 1 + i = r + 1 + Nat.succ i := by omega
        rw [he]
      simp only [Nat.add_sub_cancel, List.range_succ_eq_map, List.map_cons, List.map_map,
        Nat.add_zero]
      rw [hmap]

theorem bedrockGo_throttle_then_ok {α : Type} (minW maxW mult mR : Nat)
    (oracle : Nat → TransportOutcome α) (m : Nat → String) (k : Nat) (a : α)
    (hth : ∀ i, i < k → oracle i = .clientError "ThrottlingException" (m i))
    (hk : oracle k = .ok a) :
    ∀ fuel r, r + fuel = mR → r ≤ k → k < mR →
      (bedrockGo minW maxW mult mR oracle r fuel).outcome = .ok a ∧
      (bedrockGo minW maxW mult mR oracle r fuel).attempts = k + 1 - r := by
  intro fuel
  induction fuel with
  | zero => intro r h1 h2 h3; omega
  | succ f ih =>
    intro r hsum hrk hkm
    by_cases hr : r = k
    · subst hr
      rw [bedrockGo_ok_step minW maxW mult mR oracle r f a hk]
      exact ⟨rfl, show (1 : Nat) = r + 1 - r by omega⟩
    · have hlt : r < k := by omega
      have hne : ¬(r + 1 = mR) := by omega
      have hrest := ih (r + 1) (by omega) (by omega) hkm
      rw [bedrockGo_throttle_step minW maxW mult mR oracle r f (m r) (hth r hlt) hne]
      refine ⟨hrest.1, ?_⟩
      show (bedrockGo minW maxW mult mR oracle (r + 1) f).attempts + 1 = k + 1 - r
      rw [hrest.2]
      omega

/-- C1: with `num_retries = 3`, a transport throttling on every attempt makes
exactly 3 attempts and terminates with the rate-limit error whose message
mentions the retry count; a transport throttling twice then succeeding
returns the successful result with exactly 3 attempts made. -/
theorem c1_throttling_retry_bound {α : Type} (cfg : LLMConfig)
    (oracle : Nat → TransportOutcome α) (m : Nat → String) (a : α)
    (hn : cfg.num_retries = 3) :
    ((∀ i, oracle i = .clientError "ThrottlingException" (m i)) →
      (handleBedrockError cfg oracle).outcome = .err (.rateLimitExceeded 3) ∧
      (handleBedrockError cfg oracle).attempts = 3 ∧
      (BedrockErr.rateLimitExceeded 3).message = "Rate limit exceeded after 3 retries") ∧
    ((∀ i, i < 2 → oracle i = .clientError "ThrottlingException" (m i)) →
      oracle 2 = .ok a →
      (handleBedrockError cfg oracle).outcome = .ok a ∧
      (handleBedrockError cfg oracle).attempts = 3) := by
  have he : effectiveMaxRetries cfg.num_retries = 3 := by rw [hn]; rfl
  constructor
  · intro hth
    have h := bedrockGo_throttle_all cfg.retry_min_wait cfg.retry_max_wait
      cfg.retry_multiplier 3 oracle m hth 3 0 (by omega) (by omega)
    simp only [handleBedrockError, he, h]
    refine ⟨trivial, trivial, ?_⟩
    rfl
  · intro hth hok
    have h := bedrockGo_throttle_then_ok cfg.retry_min_wait cfg.retry_max_wait
      cfg.retry_multiplier 3 oracle m 2 a hth hok 3 0 (by omega) (by omega) (by omega)
    simp only [handleBedrockError, he]
    exact ⟨h.1, h.2⟩

/-- C1 witness: the theorem applied to the concrete configuration and the two
concrete throttling transports. -/
theorem c1_throttling_retry_bound_witness :
    cfgT.num_retries = 3 ∧
    (handleBedrockError cfgT oracleT).outcome = .err (.rateLimitExceeded 3) ∧
    (handleBedrockError cfgT oracleT).attempts = 3 ∧
    (handleBedrockError cfgT oracleT2).outcome = .ok (.jstr "done") ∧
    (handleBedrockError cfgT oracleT2).attempts = 3 := by
  refine ⟨rfl, ?_, ?_, ?_, ?_⟩
  · exact ((c1_throttling_retry_bound cfgT oracleT (fun _ => "throttled")
      (.jstr "done") rfl).1 (fun _ => rfl)).1
  · exact (((c1_throttling_retry_bound cfgT oracleT (fun _ => "throttled")
      (.jstr "done") rfl).1 (fun _ => rfl)).2).1
  · exact ((c1_throttling_retry_bound cfgT oracleT2 (fun _ => "throttled")
      (.jstr "done") rfl).2 (fun i hi => by simp [oracleT2, hi]) rfl).1
  · exact ((c1_throttling_retry_bound cfgT oracleT2 (fun _ => "throttled")
      (.jstr "done") rfl).2 (fun i hi => by simp [oracleT2, hi]) rfl).2

/-- C3: a `ValidationException` and an `InternalServerException` on the first
attempt each terminate the wrapped call after exactly one transport attempt
with no sleep, raised as two distinct error kinds. -/
theorem c3_fatal_classification {α : Type} (cfg : LLMConfig)
    (oracle : Nat → TransportOutcome α) (mv mi : String) :
    (oracle 0 = .clientError "ValidationException" mv →
      handleBedrockError cfg oracle = ⟨.err (.invalidRequest mv), 1, []⟩) ∧
    (oracle 0 = .clientError "InternalServerException" mi →
      handleBedrockError cfg oracle = ⟨.err (.internalError mi), 1, []⟩) ∧
    (∀ a b : String, BedrockErr.invalidRequest a ≠ BedrockErr.internalError b) := by
  obtain ⟨f, hf⟩ : ∃ f, effectiveMaxRetries cfg.num_retries = f + 1 :=
    ⟨effectiveMaxRetries cfg.num_retries - 1,
     by have := effectiveMaxRetries_pos cfg.num_retries; omega⟩
  refine ⟨?_, ?_, fun a b h => BedrockErr.noConfusion h⟩
  · intro h
    simp only [handleBedrockError, hf]
    exact bedrockGo_validation_step _ _ _ _ oracle 0 f mv h
  · intro h
    simp only [handleBedrockError, hf]
    exact bedrockGo_internal_step _ _ _ _ oracle 0 f mi h

/-- C3 witness: the theorem applied to concrete validation-failing and
internal-failing transports. -/
theorem c3_fatal_classification_witness :
    handleBedrockError cfgT oracleV = ⟨.err (.invalidRequest "bad request"), 1, []⟩ ∧
    handleBedrockError cfgT oracleI = ⟨.err (.internalError "boom"), 1, []⟩ :=
  ⟨(c3_fatal_classification cfgT oracleV "bad request" "x").1 rfl,
   ((c3_fatal_classification cfgT oracleI "y" "boom").2).1 rfl⟩

/-- C5 counterexample: with `min_wait = 1`, `max_wait = 100`,
`multiplier = 2` and persistent throttling, the delay slept before the
first retry is `min(100, 1 * 2 ^ 1) = 2`, not
`min(max_wait, min_wait * multiplier ^ 0) = 1` as the claim's 0-based
exponent predicts. -/
theorem c5_backoff_exponent_counterexample :
    (handleBedrockError cfgT oracleT).sleeps = [2, 4] ∧
    min cfgT.retry_max_wait (cfgT.retry_min_wait * cfgT.retry_multiplier ^ 0) = 1 ∧
    (2 : Nat) ≠ 1 := by
  refine ⟨?_, rfl, by omega⟩
  rfl

/-- C5 amended: the source increments the attempt counter before computing
the wait, so under persistent throttling the delay slept before the
`(i+1)`-th retry is `min(max_wait, min_wait * multiplier ^ (i + 1))` — the
exponent is 1-based, and the delay before the first retry is
`min(max_wait, min_wait * multiplier)`. -/
theorem c5_backoff_exponent_amended {α : Type} (cfg : LLMConfig)
    (oracle : Nat → TransportOutcome α) (m : Nat → String)
    (hth : ∀ i, oracle i = .clientError "ThrottlingException" (m i)) :
    (handleBedrockError cfg oracle).sleeps =
      (List.range (effectiveMaxRetries cfg.num_retries - 1)).map
        (fun i => min cfg.retry_max_wait
          (cfg.retry_min_wait * cfg.retry_multiplier ^ (i + 1))) := by
  have h := bedrockGo_throttle_all cfg.retry_min_wait cfg.retry_max_wait cfg.retry_multiplier
    (effectiveMaxRetries cfg.num_retries) oracle m hth (effectiveMaxRetries cfg.num_retries) 0
    (by omega) (effectiveMaxRetries_pos _)
  simp only [handleBedrockError, h]
  apply List.map_congr_left
  intro i _
  have e : 0 + 1 + i = i + 1 := by omega
  rw [e]

/-- C5 witness: the amended theorem applied to the concrete configuration
and the persistently-throttling transport. -/
theorem c5_backoff_exponent_witness :
    (∀ i, oracleT i = .clientError "ThrottlingException" "throttled") ∧
    (handleBedrockError cfgT oracleT).sleeps =
      (List.range (effectiveMaxRetries cfgT.num_retries - 1)).map
        (fun i => min cfgT.retry_max_wait
          (cfgT.retry_min_wait * cfgT.retry_multiplier ^ (i + 1))) :=
  ⟨fun _ => rfl,
   c5_backoff_exponent_amended cfgT oracleT (fun _ => "throttled") (fun _ => rfl)⟩

/-- C10: a configured retry count of 0 is falsy, so `num_retries or 3`
silently replaces it with the default 3: the wrapped call behaves exactly
as with `num_retries = 3`, and persistent throttling still makes exactly 3
attempts before the rate-limit failure. -/
theorem c10_zero_retries_treated_as_default {α : Type} (cfg : LLMConfig)
    (oracle : Nat → TransportOutcome α) (m : Nat → String)
    (hn : cfg.num_retries = 0) :
    handleBedrockError cfg oracle
        = handleBedrockError { cfg with num_retries := 3 } oracle ∧
    ((∀ i, oracle i = .clientError "ThrottlingException" (m i)) →
      (handleBedrockError cfg oracle).outcome = .err (.rateLimitExceeded 3) ∧
      (handleBedrockError cfg oracle).attempts = 3) := by
  have he : effectiveMaxRetries cfg.num_retries = 3 := by rw [hn]; rfl
  constructor
  · simp [handleBedrockError, effectiveMaxRetries, hn]
  · intro hth
    have h := bedrockGo_throttle_all cfg.retry_min_wait cfg.retry_max_wait
      cfg.retry_multiplier 3 oracle m hth 3 0 (by omega) (by omega)
    simp only [handleBedrockError, he, h]
    exact ⟨trivial, trivial⟩

/-- C10 witness: the theorem applied to the zero-retries configuration and
the persistently-throttling transport. -/
theorem c10_zero_retries_treated_as_default_witness :
    cfgT0.num_retries = 0 ∧
    handleBedrockError cfgT0 oracleT = handleBedrockError { cfgT0 with num_retries := 3 } oracleT ∧
    (handleBedrockError cfgT0 oracleT).attempts = 3 :=
  ⟨rfl,
   (c10_zero_retries_treated_as_default cfgT0 oracleT (fun _ => "throttled") rfl).1,
   ((c10_zero_retries_treated_as_default cfgT0 oracleT (fun _ => "throttled") rfl).2
      (fun _ => rfl)).2⟩

theorem except_bind_ok {e a b : Type} (x : a) (f : a → Except e b) :
    (Except.ok x >>= f) = f x := rfl

theorem except_bind_error {e a b : Type} (err : e) (f : a → Except e b) :
    ((Except.error err : Except e a) >>= f) = .error err := rfl

theorem prepareModelKwargs_jobj (cfg : LLMConfig) (prompt : String) (kw : CallKwargs)
    (body : JVal) (h : prepareModelKwargs cfg prompt kw = .ok body) :
    ∃ fs, body = .jobj fs := by
  simp only [prepareModelKwargs] at h
  split at h
  · injection h with h'
    exact ⟨_, h'.symm⟩
  · split at h
    · injection h with h'
      exact ⟨_, h'.symm⟩
    · split at h
      · injection h with h'
        exact ⟨_, h'.symm⟩
      · cases h

theorem buildRequestBody_cache (cfg : LLMConfig) (prompt : String) (kw : CallKwargs)
    (body : JVal) (hc : cfg.caching_prompt = true)
    (hb : buildRequestBody cfg prompt kw = .ok body) :
    jLookup body "cacheConfig" =
      some (.jobj [("enabled", .jbool true), ("ttl", kw.cache_ttl.getD (.jnum 3600))]) := by
  cases hp : prepareModelKwargs cfg prompt kw with
  | error e =>
    rw [buildRequestBody, hp, except_bind_error] at hb
    cases hb
  | ok b =>
    obtain ⟨fs, rfl⟩ := prepareModelKwargs_jobj cfg prompt kw b hp
    rw [buildRequestBody, hp, except_bind_ok] at hb
    simp only [hc, if_true] at hb
    cases hg : cfg.guardrail_config with
    | none =>
      rw [hg] at hb
      injection hb with h'
      rw [← h']
      simp only [JVal.setF, jLookup]
      exact alookup_aset_self fs "cacheConfig" _
    | some g =>
      rw [hg] at hb
      injection hb with h'
      rw [← h']
      simp only [JVal.setF, jLookup]
      rw [alookup_aset_ne _ _ _ _ (by decide)]
      exact alookup_aset_self fs "cacheConfig" _

/-- C9: with `caching_prompt = true` and no explicit ttl override, the
encoded request body carries a cache block `enabled = true, ttl = 3600`;
with an explicit `cache_ttl = 120` the block's ttl is 120. -/
theorem c9_cache_directive (cfg : LLMConfig) (prompt : String) (kw : CallKwargs)
    (body : JVal) (hc : cfg.caching_prompt = true) :
    (kw.cache_ttl = none → buildRequestBody cfg prompt kw = .ok body →
      jLookup body "cacheConfig" =
        some (.jobj [("enabled", .jbool true), ("ttl", .jnum 3600)])) ∧
    (kw.cache_ttl = some (.jnum 120) → buildRequestBody cfg prompt kw = .ok body →
      jLookup body "cacheConfig" =
        some (.jobj [("enabled", .jbool true), ("ttl", .jnum 120)])) := by
  constructor
  · intro h1 h2
    have h := buildRequestBody_cache cfg prompt kw body hc h2
    rw [h1] at h
    exact h
  · intro h1 h2
    have h := buildRequestBody_cache cfg prompt kw body hc h2
    rw [h1] at h
    exact h

/-- C9 witness: the theorem applied to the concrete caching configuration,
once with default kwargs and once with the explicit ttl override. -/
theorem c9_cache_directive_witness :
    cfgC.caching_prompt = true ∧
    (∃ body, buildRequestBody cfgC "hi" kwNone = .ok body ∧
      jLookup body "cacheConfig" =
        some (.jobj [("enabled", .jbool true), ("ttl", .jnum 3600)])) ∧
    (∃ body, buildRequestBody cfgC "hi" kwTtl = .ok body ∧
      jLookup body "cacheConfig" =
        some (.jobj [("enabled", .jbool true), ("ttl", .jnum 120)])) := by
  refine ⟨rfl, ⟨_, rfl, ?_⟩, ⟨_, rfl, ?_⟩⟩
  · exact (c9_cache_directive cfgC "hi" kwNone _ rfl).1 rfl rfl
  · exact (c9_cache_directive cfgC "hi" kwTtl _ rfl).2 rfl rfl

theorem prepareModelKwargs_unmatched (cfg : LLMConfig) (prompt : String) (kw : CallKwargs)
    (h1 : strStarts (stripBedrock cfg.model) "anthropic.claude" = false)
    (h2 : strStarts (stripBedrock cfg.model) "amazon.titan" = false)
    (h3 : strStarts (stripBedrock cfg.model) "ai21" = false) :
    prepareModelKwargs cfg prompt kw =
      .error (.unsupportedModel (stripBedrock cfg.model)) := by
  simp [prepareModelKwargs, h1, h2, h3]

theorem decodeStreamChunk_unmatched (mid : String) (c : JVal)
    (h1 : strStarts mid "anthropic.claude" = false)
    (h2 : strStarts mid "amazon.titan" = false)
    (h3 : strStarts mid "ai21" = false) :
    decodeStreamChunk mid c = .ok none := by
  simp [decodeStreamChunk, h1, h2, h3]

theorem streamCompletion_unmatched (mid : String)
    (h1 : strStarts mid "anthropic.claude" = false)
    (h2 : strStarts mid "amazon.titan" = false)
    (h3 : strStarts mid "ai21" = false) :
    ∀ chunks : List JVal, streamCompletion mid (chunks.map .frame) = ([], none) := by
  intro chunks
  induction chunks with
  | nil => rfl
  | cons c rest ih =>
    simp only [List.map_cons, streamCompletion,
      decodeStreamChunk_unmatched mid c h1 h2 h3]
    exact ih

theorem syncDecode_unmatched (mid : String) (payload : JVal)
    (h1 : strStarts mid "anthropic.claude" = false)
    (h2 : strStarts mid "amazon.titan" = false)
    (h3 : strStarts mid "ai21" = false) :
    syncDecode mid payload =
      .error (.bedrockRaised (BedrockErr.unsupportedResponseFormat mid).message) := by
  simp [syncDecode, h1, h2, h3]

/-- C4 counterexample: for the unrecognized identifier `mistral.large`
(matching none of the three family prefixes), decoding a stream frame does
not fail with an unsupported-model error — the frame loop silently yields
nothing and the stream terminates normally. -/
theorem c4_unsupported_model_counterexample :
    strStarts "mistral.large" "anthropic.claude" = false ∧
    strStarts "mistral.large" "amazon.titan" = false ∧
    strStarts "mistral.large" "ai21" = false ∧
    streamCompletion "mistral.large" [.frame (.jobj [("completion", .jstr "hi")])]
      = ([], none) :=
  ⟨rfl, rfl, rfl, rfl⟩

/-- C4 amended: for an identifier matching none of the three families,
encode fails with the unsupported-model error before any transport request
is issued, and sync decode of any raw payload fails with the distinct
unsupported-response-format error; the streaming frame decoder, however,
silently yields no chunk for such an identifier and the stream terminates
without error. -/
theorem c4_unsupported_model_amended (cfg : LLMConfig) (prompt : String) (kw : CallKwargs)
    (transport : String → JVal → Except (String × String) JVal) (payload : JVal)
    (chunks : List JVal)
    (h1 : strStarts (stripBedrock cfg.model) "anthropic.claude" = false)
    (h2 : strStarts (stripBedrock cfg.model) "amazon.titan" = false)
    (h3 : strStarts (stripBedrock cfg.model) "ai21" = false) :
    prepareModelKwargs cfg prompt kw =
      .error (.unsupportedModel (stripBedrock cfg.model)) ∧
    (syncCallInner cfg prompt kw transport).2 = [] ∧
    (syncCallInner cfg prompt kw transport).1 =
      .error (.py (.bedrockRaised
        (BedrockErr.unsupportedModel (stripBedrock cfg.model)).message)) ∧
    syncDecode (stripBedrock cfg.model) payload =
      .error (.bedrockRaised
        (BedrockErr.unsupportedResponseFormat (stripBedrock cfg.model)).message) ∧
    streamCompletion (stripBedrock cfg.model) (chunks.map .frame) = ([], none) := by
  have hp := prepareModelKwargs_unmatched cfg prompt kw h1 h2 h3
  have hb : buildRequestBody cfg prompt kw =
      .error (.unsupportedModel (stripBedrock cfg.model)) := by
    rw [buildRequestBody, hp, except_bind_error]
  refine ⟨hp, ?_, ?_, syncDecode_unmatched _ payload h1 h2 h3,
    streamCompletion_unmatched _ h1 h2 h3 chunks⟩
  · simp [syncCallInner, hb]
  · simp [syncCallInner, hb]

/-- C4 witness: the amended theorem applied to the concrete unsupported
model `bedrock/mistral.large`. -/
theorem c4_unsupported_model_amended_witness :
    strStarts (stripBedrock cfgU.model) "anthropic.claude" = false ∧
    prepareModelKwargs cfgU "hi" kwNone = .error (.unsupportedModel "mistral.large") ∧
    (syncCallInner cfgU "hi" kwNone (fun _ _ => .ok (.jobj []))).2 = [] ∧
    syncDecode (stripBedrock cfgU.model) (.jobj []) =
      .error (.bedrockRaised "Unsupported model response format: mistral.large") ∧
    streamCompletion (stripBedrock cfgU.model) ([JVal.jobj []].map .frame) = ([], none) := by
  have h := c4_unsupported_model_amended cfgU "hi" kwNone (fun _ _ => .ok (.jobj []))
    (.jobj []) [.jobj []] rfl rfl rfl
  exact ⟨rfl, h.1, h.2.1, h.2.2.2.1, h.2.2.2.2⟩

theorem streamCompletion_frames (mid : String) :
    ∀ chunks : List JVal, framesOk mid chunks = true →
      streamCompletion mid (chunks.map .frame) = (chunks.map (yieldOf mid), none) := by
  intro chunks
  induction chunks with
  | nil => intro _; rfl
  | cons c rest ih =>
    intro h
    rw [framesOk, List.all_cons, Bool.and_eq_true] at h
    obtain ⟨hc, hrest⟩ := h
    cases e : decodeStreamChunk mid c with
    | error pe => rw [e] at hc; simp at hc
    | ok o =>
      cases o with
      | none => rw [e] at hc; simp at hc
      | some u =>
        have hy : yieldOf mid c = u := by rw [yieldOf, e]
        simp only [List.map_cons, streamCompletion, e, ih hrest, hy]

/-- C8: for a recognized model family, consuming the stream over `N`
decodable frames yields exactly `N` uniform chunks, one decoded chunk per
frame in arrival order, and then the sequence terminates normally. -/
theorem c8_streaming_one_chunk_per_frame (mid : String) (chunks : List JVal)
    (_hfam : strStarts mid "anthropic.claude" = true ∨
      strStarts mid "amazon.titan" = true ∨ strStarts mid "ai21" = true)
    (hok : framesOk mid chunks = true) :
    streamCompletion mid (chunks.map .frame) = (chunks.map (yieldOf mid), none) ∧
    (chunks.map (yieldOf mid)).length = chunks.length ∧
    ∀ i (hi : i < chunks.length),
      decodeStreamChunk mid (chunks.get ⟨i, hi⟩) =
        .ok (some (yieldOf mid (chunks.get ⟨i, hi⟩))) := by
  refine ⟨streamCompletion_frames mid chunks hok, List.length_map _ _, ?_⟩
  intro i hi
  have hmem : chunks.get ⟨i, hi⟩ ∈ chunks := List.get_mem chunks i hi
  rw [framesOk, List.all_eq_true] at hok
  have hc := hok _ hmem
  cases e : decodeStreamChunk mid (chunks.get ⟨i, hi⟩) with
  | error pe => rw [e] at hc; simp at hc
  | ok o =>
    cases o with
    | none => rw [e] at hc; simp at hc
    | some u =>
      have hy : yieldOf mid (chunks.get ⟨i, hi⟩) = u := by rw [yieldOf, e]
      rw [hy]

/-- C8 witness: the theorem applied to a concrete claude-family model and a
concrete two-frame stream. -/
theorem c8_streaming_one_chunk_per_frame_witness :
    framesOk "anthropic.claude-v2" chunks8 = true ∧
    streamCompletion "anthropic.claude-v2" (chunks8.map .frame) =
      (chunks8.map (yieldOf "anthropic.claude-v2"), none) ∧
    (chunks8.map (yieldOf "anthropic.claude-v2")).length = chunks8.length :=
  ⟨rfl,
   (c8_streaming_one_chunk_per_frame "anthropic.claude-v2" chunks8 (Or.inl rfl) rfl).1,
   (c8_streaming_one_chunk_per_frame "anthropic.claude-v2" chunks8 (Or.inl rfl) rfl).2.1⟩

/-- C2: because `_stream_completion` is a generator function, the decorated
`create_completion` with `stream=True` makes zero transport attempts inside
the retry wrapper — it returns the suspended generator whenever encoding
succeeds, regardless of transport behaviour — and the initial
`invoke_model_with_response_stream` call runs at the consumer's first pull,
exactly once, with a `ClientError` (throttling included) surfacing there
raw instead of being retried or wrapped as the unified error kind. -/
theorem c2_stream_initial_call_escapes_retry :
    (∀ (cfg : LLMConfig) (prompt : String) (kw : CallKwargs),
      (createCompletionStream cfg prompt kw).2 = 0) ∧
    (∀ (cfg : LLMConfig) (prompt : String) (kw : CallKwargs) (body : JVal),
      buildRequestBody cfg prompt kw = .ok body →
      (createCompletionStream cfg prompt kw).1 = .ok ⟨stripBedrock cfg.model, body⟩) ∧
    (∀ (g : StreamGen) (code msg : String),
      consumeStream (.clientError code msg) g = (.error (code, msg), 1)) := by
  refine ⟨?_, ?_, fun g code msg => rfl⟩
  · intro cfg prompt kw
    cases h : buildRequestBody cfg prompt kw <;> simp [createCompletionStream, h]
  · intro cfg prompt kw body h
    simp [createCompletionStream, h]

/-- C2 witness: the theorem applied to the concrete claude configuration,
with the transport throttling on the initial stream-handle call. -/
theorem c2_stream_initial_call_escapes_retry_witness :
    (createCompletionStream cfgT "hi" kwNone).2 = 0 ∧
    (∃ body, buildRequestBody cfgT "hi" kwNone = .ok body ∧
      (createCompletionStream cfgT "hi" kwNone).1 = .ok ⟨stripBedrock cfgT.model, body⟩) ∧
    consumeStream (.clientError "ThrottlingException" "throttled")
        ⟨"anthropic.claude-v2", .jobj []⟩
      = (.error ("ThrottlingException", "throttled"), 1) :=
  ⟨c2_stream_initial_call_escapes_retry.1 cfgT "hi" kwNone,
   ⟨_, rfl, c2_stream_initial_call_escapes_retry.2.1 cfgT "hi" kwNone _ rfl⟩,
   c2_stream_initial_call_escapes_retry.2.2 ⟨"anthropic.claude-v2", .jobj []⟩
     "ThrottlingException" "throttled"⟩

theorem exceptToOption_eq_some {e a : Type} {x : Except e a} {v : a}
    (h : x.toOption = some v) : x = .ok v := by
  cases x with
  | error err => simp [Except.toOption] at h
  | ok w => simp [Except.toOption] at h; rw [h]

theorem buildConfig_missing_api_key (raw : List (String × JVal))
    (h : alookup raw "api_key" = none) : buildConfig raw = none := by
  have h3 : (reqStr raw "api_key").toOption = none := by
    simp [reqStr, h, Except.toOption]
  rw [buildConfig]
  cases e1 : (reqStr raw "model_name").toOption <;>
    cases e2 : (reqStr raw "api_base").toOption <;>
      simp only [e1, e2, h3, Option.bind_eq_bind, Option.none_bind, Option.some_bind]

theorem declErrors_missing_mem (raw : List (String × JVal)) (f : String)
    (hf : f ∈ ["model_name", "api_base", "api_key"]) (h : alookup raw f = none) :
    FieldError.missing f ∈ declErrors raw := by
  have hm : errList (reqStr raw f) = [FieldError.missing f] := by
    simp [reqStr, h, errList]
  have hmem : FieldError.missing f ∈ errList (reqStr raw f) := by
    rw [hm]
    exact List.mem_singleton.mpr rfl
  simp only [List.mem_cons, List.not_mem_nil, or_false] at hf
  unfold declErrors
  rcases hf with rfl | rfl | rfl
  · apply List.mem_append_left
    apply List.mem_append_left
    apply List.mem_append_left
    apply List.mem_append_left
    apply List.mem_append_left
    apply List.mem_append_left
    apply List.mem_append_left
    apply List.mem_append_left
    apply List.mem_append_left
    apply List.mem_append_left
    apply List.mem_append_left
    exact hmem
  · apply List.mem_append_left
    apply List.mem_append_left
    apply List.mem_append_left
    apply List.mem_append_left
    apply List.mem_append_left
    apply List.mem_append_left
    apply List.mem_append_left
    apply List.mem_append_left
    apply List.mem_append_left
    apply List.mem_append_left
    apply List.mem_append_right
    exact hmem
  · apply List.mem_append_left
    apply List.mem_append_left
    apply List.mem_append_left
    apply List.mem_append_left
    apply List.mem_append_left
    apply List.mem_append_left
    apply List.mem_append_left
    apply List.mem_append_left
    apply List.mem_append_left
    apply List.mem_append_right
    exact hmem

/-- C6: a declaration missing the required `api_key` makes `load_provider`
fail with the aggregated invalid-configuration error, which names `api_key`
(and every other missing required field), and leaves the registry's
name-to-declaration mapping untouched. -/
theorem c6_missing_field_aggregated (resolve : String → Bool) (st : LoaderState)
    (raw : List (String × JVal)) (hk : alookup raw "api_key" = none) :
    (load_provider resolve st raw).1 = .error (.invalidConfiguration (declErrors raw)) ∧
    FieldError.missing "api_key" ∈ declErrors raw ∧
    (∀ f, f ∈ ["model_name", "api_base", "api_key"] → alookup raw f = none →
      FieldError.missing f ∈ declErrors raw) ∧
    (load_provider resolve st raw).2 = st := by
  have hv : validateProviderConfig raw = .error (declErrors raw) := by
    rw [validateProviderConfig, buildConfig_missing_api_key raw hk]
  refine ⟨?_, declErrors_missing_mem raw "api_key" (by simp) hk,
    fun f hf h => declErrors_missing_mem raw f hf h, ?_⟩
  · simp [load_provider, hv]
  · simp [load_provider, hv]

/-- C6 witness: the theorem applied to a concrete declaration that omits
`api_key`, loaded into the empty registry. -/
theorem c6_missing_field_aggregated_witness :
    alookup raw6 "api_key" = none ∧
    (load_provider rTrue st0 raw6).1 =
      .error (.invalidConfiguration (declErrors raw6)) ∧
    FieldError.missing "api_key" ∈ declErrors raw6 ∧
    (load_provider rTrue st0 raw6).2 = st0 :=
  ⟨rfl,
   (c6_missing_field_aggregated rTrue st0 raw6 rfl).1,
   (c6_missing_field_aggregated rTrue st0 raw6 rfl).2.1,
   (c6_missing_field_aggregated rTrue st0 raw6 rfl).2.2.2⟩

theorem buildConfig_fields (raw : List (String × JVal)) (cfg : ProviderConfig)
    (h : buildConfig raw = some cfg) :
    reqStr raw "model_name" = .ok cfg.model_name ∧
    reqStr raw "api_base" = .ok cfg.api_base ∧
    reqStr raw "api_key" = .ok cfg.api_key ∧
    optStr raw "provider_class" = .ok cfg.provider_class ∧
    strD raw "auth_type" "bearer" = .ok cfg.auth_type ∧
    strMapD raw "custom_headers" = .ok cfg.custom_headers ∧
    anyMapD raw "params" = .ok cfg.params ∧
    intD raw "timeout" 30 = .ok cfg.timeout ∧
    intD raw "max_retries" 3 = .ok cfg.max_retries ∧
    ratD raw "temperature" (7/10) = .ok cfg.temperature ∧
    optInt raw "max_tokens" = .ok cfg.max_tokens ∧
    boolD raw "stream" false = .ok cfg.stream := by
  rw [buildConfig] at h
  simp only [Option.pure_def, Option.bind_eq_bind, Option.bind_eq_some] at h
  obtain ⟨mn, e1, ab, e2, ak, e3, pc, e4, at_, e5, ch, e6, ps, e7, tm, e8, mr, e9,
    tp, e10, mt, e11, sf, e12, hcfg⟩ := h
  injection hcfg with hcfg'
  subst cfg
  exact ⟨exceptToOption_eq_some e1, exceptToOption_eq_some e2, exceptToOption_eq_some e3,
    exceptToOption_eq_some e4, exceptToOption_eq_some e5, exceptToOption_eq_some e6,
    exceptToOption_eq_some e7, exceptToOption_eq_some e8, exceptToOption_eq_some e9,
    exceptToOption_eq_some e10, exceptToOption_eq_some e11, exceptToOption_eq_some e12⟩

theorem validate_ok_buildConfig (raw : List (String × JVal)) (cfg : ProviderConfig)
    (h : validateProviderConfig raw = .ok cfg) : buildConfig raw = some cfg := by
  rw [validateProviderConfig] at h
  cases hb : buildConfig raw with
  | none => rw [hb] at h; cases h
  | some c =>
    rw [hb] at h
    injection h with h'
    rw [h']

theorem load_provider_ok (resolve : String → Bool) (st : LoaderState)
    (raw : List (String × JVal)) (cfg : ProviderConfig) (st' : LoaderState)
    (h : load_provider resolve st raw = (.ok cfg, st')) :
    validateProviderConfig raw = .ok cfg ∧
    st'.loaded_models = aset st.loaded_models cfg.model_name cfg := by
  cases hv : validateProviderConfig raw with
  | error errs =>
    rw [load_provider, hv] at h
    simp at h
  | ok c =>
    rw [load_provider, hv] at h
    dsimp only at h
    cases hpc : c.provider_class with
    | some cls =>
      rw [hpc] at h
      dsimp only at h
      by_cases hr : resolve cls
      · rw [if_pos hr] at h
        simp only [Prod.mk.injEq, Except.ok.injEq] at h
        obtain ⟨rfl, rfl⟩ := h
        exact ⟨rfl, rfl⟩
      · rw [if_neg hr] at h
        simp at h
    | none =>
      rw [hpc] at h
      dsimp only at h
      simp only [Prod.mk.injEq, Except.ok.injEq] at h
      obtain ⟨rfl, rfl⟩ := h
      exact ⟨rfl, rfl⟩

/-- C7: loading a well-formed declaration then looking its `model_name` up
returns a declaration agreeing with the source on every schema field; after
two successful loads sharing one `model_name`, only the second declaration
is visible through `get_model_config` and `list_models` (last write wins,
no merge). -/
theorem c7_registry_roundtrip (resolve : String → Bool) :
    (∀ (st st' : LoaderState) (raw : List (String × JVal)) (cfg : ProviderConfig),
      load_provider resolve st raw = (.ok cfg, st') →
      get_model_config st' cfg.model_name = some cfg ∧
      reqStr raw "model_name" = .ok cfg.model_name ∧
      reqStr raw "api_base" = .ok cfg.api_base ∧
      reqStr raw "api_key" = .ok cfg.api_key ∧
      optStr raw "provider_class" = .ok cfg.provider_class ∧
      strD raw "auth_type" "bearer" = .ok cfg.auth_type ∧
      strMapD raw "custom_headers" = .ok cfg.custom_headers ∧
      anyMapD raw "params" = .ok cfg.params ∧
      intD raw "timeout" 30 = .ok cfg.timeout ∧
      intD raw "max_retries" 3 = .ok cfg.max_retries ∧
      ratD raw "temperature" (7/10) = .ok cfg.temperature ∧
      optInt raw "max_tokens" = .ok cfg.max_tokens ∧
      boolD raw "stream" false = .ok cfg.stream) ∧
    (∀ (st st1 st2 : LoaderState) (raw1 raw2 : List (String × JVal))
      (cfg1 cfg2 : ProviderConfig),
      load_provider resolve st raw1 = (.ok cfg1, st1) →
      load_provider resolve st1 raw2 = (.ok cfg2, st2) →
      cfg1.model_name = cfg2.model_name →
      get_model_config st2 cfg2.model_name = some cfg2 ∧
      alookup (list_models st2) cfg2.model_name = some cfg2) := by
  constructor
  · intro st st' raw cfg h
    obtain ⟨hv, hst⟩ := load_provider_ok resolve st raw cfg st' h
    have hb := validate_ok_buildConfig raw cfg hv
    have hf := buildConfig_fields raw cfg hb
    refine ⟨?_, hf.1, hf.2.1, hf.2.2.1, hf.2.2.2.1, hf.2.2.2.2.1, hf.2.2.2.2.2.1,
      hf.2.2.2.2.2.2.1, hf.2.2.2.2.2.2.2.1, hf.2.2.2.2.2.2.2.2.1,
      hf.2.2.2.2.2.2.2.2.2.1, hf.2.2.2.2.2.2.2.2.2.2.1, hf.2.2.2.2.2.2.2.2.2.2.2⟩
    rw [get_model_config, hst]
    exact alookup_aset_self _ _ _
  · intro st st1 st2 raw1 raw2 cfg1 cfg2 h1 h2 _hname
    obtain ⟨_, hst2⟩ := load_provider_ok resolve st1 raw2 cfg2 st2 h2
    constructor
    · rw [get_model_config, hst2]
      exact alookup_aset_self _ _ _
    · rw [list_models, hst2]
      exact alookup_aset_self _ _ _

/-- C7 witness: the theorem applied to two concrete well-formed
declarations sharing `model_name = test-model`, loaded into the empty
registry. -/
theorem c7_registry_roundtrip_witness :
    (∃ cfg1 st1, load_provider rTrue st0 raw7a = (.ok cfg1, st1) ∧
      get_model_config st1 cfg1.model_name = some cfg1) ∧
    (∃ cfg1 st1 cfg2 st2,
      load_provider rTrue st0 raw7a = (.ok cfg1, st1) ∧
      load_provider rTrue st1 raw7b = (.ok cfg2, st2) ∧
      cfg1.model_name = cfg2.model_name ∧
      get_model_config st2 cfg2.model_name = some cfg2 ∧
      alookup (list_models st2) cfg2.model_name = some cfg2) := by
  constructor
  · refine ⟨_, _, rfl, ?_⟩
    exact ((c7_registry_roundtrip rTrue).1 st0 _ raw7a _ rfl).1
  · refine ⟨_, _, _, _, rfl, rfl, rfl, ?_, ?_⟩
    · exact ((c7_registry_roundtrip rTrue).2 st0 _ _ raw7a raw7b _ _ rfl rfl rfl).1
    · exact ((c7_registry_roundtrip rTrue).2 st0 _ _ raw7a raw7b _ _ rfl rfl rfl).2
